import Mathlib

/-!
Verification of the financial screening and composite scoring engine of the
kabu-app repository (Django application, package stock/).

The Python sources are embedded shallowly: Decimal values and Python floats
are modelled by exact rationals (every comparison and every arithmetic
operation the engine performs on them is exact on the values it actually
handles), optional / missing data by Option, and Python truthiness by
explicit tests.  Each definition carries a pointer to the source function it
embeds.
-/

namespace KabuApp

/-! ## Numeric normalizer

`StockDataFetcher.safe_decimal_convert` (stock/utils.py, lines 20-59).
An identical copy lives in `AdvancedDataFetcher.safe_decimal_convert`
(stock/advanced_data_fetcher.py, lines 20-58); one model covers both. -/

/-- The magnitude bound `1e15` of safe_decimal_convert. -/
def bigBound : ℚ := 10 ^ 15

/-- A Python value reaching safe_decimal_convert: None, a float NaN, a float
infinity, a finite int/float with exact value `q`, a string, or a Decimal
(as produced by a previous conversion). -/
inductive PyValue where
  | pynone
  | nan
  | inf (pos : Bool)
  | num (q : ℚ)
  | str (s : String)
  | dec (q : ℚ)
deriving DecidableEq

/-- Value of a decimal digit character. -/
def digitVal (c : Char) : ℕ := c.toNat - 48

/-- Value of a digit string, most significant digit first. -/
def natOfDigits (l : List Char) : ℕ := l.foldl (fun a c => 10 * a + digitVal c) 0

/-- Exponent digits of a decimal literal: optional sign, then digits running
to the end of the string. -/
def parseExpDigits (t : List Char) : Option ℤ :=
  let signAndRest : ℤ × List Char :=
    match t with
    | '+' :: u => (1, u)
    | '-' :: u => (-1, u)
    | u => (1, u)
  let ds := signAndRest.2.takeWhile Char.isDigit
  let rest := signAndRest.2.dropWhile Char.isDigit
  if ds.isEmpty || !rest.isEmpty then none
  else some (signAndRest.1 * natOfDigits ds)

/-- Exponent part of a decimal literal: empty, or `e`/`E` and exponent digits. -/
def parseExp : List Char → Option ℤ
  | [] => some 0
  | 'e' :: t => parseExpDigits t
  | 'E' :: t => parseExpDigits t
  | _ => none

/-- Parsing a numeric string as `Decimal(value)` does: optional sign, digits
with an optional fraction part, optional exponent.  Decimal additionally
accepts special values such as `.Infinity.`; those are folded into the failure
case here, which does not change safe_decimal_convert's output: an infinite
Decimal fails the magnitude recheck (`abs(decimal_value) > Decimal(.1e15.)`
holds) and yields None exactly as a parse failure does. -/
def parseDecimalString (s : String) : Option ℚ :=
  let signAndRest : ℚ × List Char :=
    match s.data with
    | '+' :: t => (1, t)
    | '-' :: t => (-1, t)
    | t => (1, t)
  let cs := signAndRest.2
  let intPart := cs.takeWhile Char.isDigit
  let rest := cs.dropWhile Char.isDigit
  let fracAndRest : List Char × List Char :=
    match rest with
    | '.' :: t => (t.takeWhile Char.isDigit, t.dropWhile Char.isDigit)
    | t => ([], t)
  if intPart.isEmpty && fracAndRest.1.isEmpty then none
  else
    match parseExp fracAndRest.2 with
    | none => none
    | some e =>
        let mantissa : ℚ :=
          (natOfDigits intPart : ℚ) + (natOfDigits fracAndRest.1 : ℚ) / 10 ^ fracAndRest.1.length
        some (signAndRest.1 * mantissa * (10 : ℚ) ^ e)

/-- The case-insensitive sentinel tokens treated as missing:
`value.lower() in ['nan', 'null', '', 'none']`. -/
def nullTokens : List String := ["nan", "null", "", "none"]

/-- `value.lower()` (ASCII letters, the only ones the sentinel comparison
can match). -/
def pyLower (s : String) : String := ⟨s.data.map Char.toLower⟩

/-- Embedding of `StockDataFetcher.safe_decimal_convert` (stock/utils.py).
None propagates; float NaN is caught by `pd.isna` / `np.isnan`; an infinity
by `np.isinf`; the sentinel strings by the lowercase token list; a finite
number of magnitude above `1e15` by the pre-check, and the same bound is
re-checked on the Decimal produced by `Decimal(str(value))` (for an int,
float or Decimal input that conversion round-trips the exact value). -/
def safe_decimal_convert : PyValue → Option ℚ
  | .pynone => none
  | .nan => none
  | .inf _ => none
  | .num q =>
      if |q| > bigBound then none
      else if |q| > bigBound then none  -- recheck after Decimal(str(value))
      else some q
  | .str s =>
      if pyLower s ∈ nullTokens then none
      else
        match parseDecimalString s with
        | none => none
        | some q => if |q| > bigBound then none else some q
  | .dec q =>
      if |q| > bigBound then none
      else if |q| > bigBound then none  -- recheck after Decimal(str(value))
      else some q

/-- Re-injection of a normalizer result into the value domain: None stays
None, a produced Decimal comes back as a Decimal. -/
def toPyValue : Option ℚ → PyValue
  | none => .pynone
  | some q => .dec q

/-- Every value safe_decimal_convert returns is within the magnitude bound. -/
theorem safe_decimal_convert_bound (v : PyValue) (q : ℚ)
    (h : safe_decimal_convert v = some q) : |q| ≤ bigBound := by
  cases v <;> simp only [safe_decimal_convert] at h
  case pynone => cases h
  case nan => cases h
  case inf b => cases h
  case num q0 =>
    split_ifs at h with h1
    cases h
    exact le_of_not_lt h1
  case str s =>
    split_ifs at h with h1
    rcases hp : parseDecimalString s with _ | q0 <;> rw [hp] at h <;> dsimp only at h
    · cases h
    · split_ifs at h with h2
      cases h
      exact le_of_not_lt h2
  case dec q0 =>
    split_ifs at h with h1
    cases h
    exact le_of_not_lt h1

/-- C2: normalizer totality.  None, float NaN, either infinity, the sentinel
strings (any letter case), any finite number of magnitude above `10^15`
(before or, for strings, after conversion to Decimal), and any unparsable
string all normalize to Absent; and on every input the normalizer returns
either Absent or a value within the `10^15` bound (it is a total function of
its input, never an exception). -/
theorem safe_decimal_convert_totality :
    safe_decimal_convert .pynone = none ∧
    safe_decimal_convert .nan = none ∧
    (∀ b : Bool, safe_decimal_convert (.inf b) = none) ∧
    (∀ s : String, pyLower s ∈ nullTokens → safe_decimal_convert (.str s) = none) ∧
    (∀ q : ℚ, |q| > bigBound → safe_decimal_convert (.num q) = none) ∧
    (∀ q : ℚ, |q| > bigBound → safe_decimal_convert (.dec q) = none) ∧
    (∀ s : String, parseDecimalString s = none → safe_decimal_convert (.str s) = none) ∧
    (∀ (s : String) (q : ℚ), parseDecimalString s = some q → |q| > bigBound →
        safe_decimal_convert (.str s) = none) ∧
    (∀ v : PyValue, safe_decimal_convert v = none ∨
        ∃ q : ℚ, safe_decimal_convert v = some q ∧ |q| ≤ bigBound) := by
  refine ⟨rfl, rfl, fun b => rfl, ?_, ?_, ?_, ?_, ?_, ?_⟩
  · intro s hs
    simp only [safe_decimal_convert]
    rw [if_pos hs]
  · intro q hq
    simp only [safe_decimal_convert]
    rw [if_pos hq]
  · intro q hq
    simp only [safe_decimal_convert]
    rw [if_pos hq]
  · intro s hs
    simp only [safe_decimal_convert]
    split_ifs
    · rfl
    · rw [hs]
  · intro s q hp hq
    simp only [safe_decimal_convert]
    split_ifs
    · rfl
    · rw [hp]
      dsimp only
      rw [if_pos hq]
  · intro v
    rcases hv : safe_decimal_convert v with _ | q
    · exact Or.inl rfl
    · exact Or.inr ⟨q, rfl, safe_decimal_convert_bound v q hv⟩

/-- Witness for C2 at concrete inputs: the string NULL (mixed case via
lowering), the number 10^16, and an unparsable string all normalize to
Absent. -/
theorem safe_decimal_convert_totality_witness :
    safe_decimal_convert (.str "NULL") = none ∧
    safe_decimal_convert (.num (10 ^ 16)) = none ∧
    safe_decimal_convert (.str "12a34") = none ∧
    safe_decimal_convert (.str "2e20") = none := by
  refine ⟨safe_decimal_convert_totality.2.2.2.1 "NULL" (by decide),
    safe_decimal_convert_totality.2.2.2.2.1 (10 ^ 16) (by norm_num [bigBound]),
    safe_decimal_convert_totality.2.2.2.2.2.2.1 "12a34" (by decide),
    safe_decimal_convert_totality.2.2.2.2.2.2.2.1 "2e20"
      ((1 : ℚ) * ((natOfDigits ['2'] : ℚ) + (natOfDigits ([] : List Char) : ℚ) / 10 ^ (0 : ℕ)) *
        (10 : ℚ) ^ ((1 : ℤ) * (natOfDigits ['2', '0'] : ℕ)))
      rfl ?_⟩
  have h2 : natOfDigits ['2'] = 2 := by decide
  have h0 : natOfDigits ([] : List Char) = 0 := by decide
  have h20 : natOfDigits ['2', '0'] = 20 := by decide
  rw [h2, h0, h20]
  norm_num [bigBound]

/-- C9: normalizer idempotence.  Re-normalizing a normalizer result (Absent
stays Absent, a produced Decimal re-enters as a Decimal) reproduces the
result unchanged. -/
theorem safe_decimal_convert_idempotent (v : PyValue) :
    safe_decimal_convert (toPyValue (safe_decimal_convert v)) = safe_decimal_convert v := by
  rcases hv : safe_decimal_convert v with _ | q
  · rfl
  · have hb := safe_decimal_convert_bound v q hv
    simp only [toPyValue, safe_decimal_convert]
    split_ifs with h
    · exact absurd h (not_lt_of_le hb)
    · rfl

/-! ## Data model

Latest-dated rows, as the screening view prefetches them
(stock/views.py, build_complete_queryset): one `Indicator` row at the
latest indicator date, one `AdvancedIndicator` row at the latest advanced
date, and the 10 most recent `Financial` rows ordered year-descending
(newest first).  Decimal columns are Option ℚ: None models SQL NULL. -/

/-- A row of the Indicator model (market snapshot columns used by the
screening engine). -/
structure Indicator where
  per : Option ℚ
  pbr : Option ℚ
  dividend_yield : Option ℚ
  price : Option ℚ
  market_cap : Option ℚ
deriving DecidableEq

/-- A row of the AdvancedIndicator model (fundamental ratio columns used by
the screening engine). -/
structure AdvancedIndicator where
  roe : Option ℚ
  roa : Option ℚ
  equity_ratio : Option ℚ
  current_ratio : Option ℚ
  revenue_growth_1y : Option ℚ
  net_growth_1y : Option ℚ
deriving DecidableEq

/-- A row of the Financial model (per fiscal year statement). -/
structure Financial where
  year : ℤ
  revenue : Option ℚ
  net_income : Option ℚ
deriving DecidableEq

/-- Python truthiness of an optional Decimal column: None and 0 are falsy. -/
def truthy : Option ℚ → Bool
  | some q => decide (q ≠ 0)
  | none => false

/-! ## Composite scoring engine (stock/views.py, lines 509-673)

Each sub-score adds two tiered components of up to 12.5 points; a component
whose input column is falsy (`if indicator.per:` and alike) contributes 0. -/

/-- PER component of calculate_valuation_score (12.5 points). -/
def perTier (per : ℚ) : ℚ :=
  if per < 8 then 12.5
  else if per < 12 then 10
  else if per < 15 then 7.5
  else if per < 20 then 5
  else if per < 25 then 2.5
  else 0

/-- PBR component of calculate_valuation_score (12.5 points). -/
def pbrTier (pbr : ℚ) : ℚ :=
  if pbr < 0.8 then 12.5
  else if pbr < 1.0 then 10
  else if pbr < 1.5 then 7.5
  else if pbr < 2.0 then 5
  else if pbr < 3.0 then 2.5
  else 0

/-- ROE component of calculate_profitability_score (12.5 points). -/
def roeTier (roe : ℚ) : ℚ :=
  if roe > 20 then 12.5
  else if roe > 15 then 10
  else if roe > 10 then 7.5
  else if roe > 5 then 5
  else if roe > 0 then 2.5
  else 0

/-- ROA component of calculate_profitability_score (12.5 points). -/
def roaTier (roa : ℚ) : ℚ :=
  if roa > 10 then 12.5
  else if roa > 7 then 10
  else if roa > 5 then 7.5
  else if roa > 3 then 5
  else if roa > 0 then 2.5
  else 0

/-- Equity-ratio component of calculate_safety_score (12.5 points). -/
def equityRatioTier (x : ℚ) : ℚ :=
  if x > 70 then 12.5
  else if x > 50 then 10
  else if x > 40 then 7.5
  else if x > 30 then 5
  else if x > 20 then 2.5
  else 0

/-- Current-ratio component of calculate_safety_score (12.5 points). -/
def currentRatioTier (x : ℚ) : ℚ :=
  if x > 2.0 then 12.5
  else if x > 1.5 then 10
  else if x > 1.2 then 7.5
  else if x > 1.0 then 5
  else if x > 0.8 then 2.5
  else 0

/-- A tier guarded by `if column:` — a falsy (missing or zero) column
contributes nothing to its half of the sub-score. -/
def optTier (tier : ℚ → ℚ) : Option ℚ → ℚ
  | some q => if q = 0 then 0 else tier q
  | none => 0

/-- `calculate_valuation_score` (stock/views.py, lines 509-541). -/
def calculate_valuation_score (i : Indicator) : ℚ :=
  optTier perTier i.per + optTier pbrTier i.pbr

/-- `calculate_profitability_score` (stock/views.py, lines 543-577). -/
def calculate_profitability_score (a : AdvancedIndicator) : ℚ :=
  optTier roeTier a.roe + optTier roaTier a.roa

/-- `calculate_safety_score` (stock/views.py, lines 621-656). -/
def calculate_safety_score (a : AdvancedIndicator) : ℚ :=
  optTier equityRatioTier a.equity_ratio + optTier currentRatioTier a.current_ratio

/-! ## CAGR (stock/views.py, calculate_cagr, lines 658-673)

`calculate_cagr` computes `(pow(end_value / start_value, 1/years) - 1) * 100`
in floating point.  The embedding keeps the result symbolic: a `CagrVal`
records the base `end_value / start_value` and the period count, which
determine the float `((base ^ (1/years)) - 1) * 100` exactly.  Python 3
`pow` does not raise on a negative base with a non-integral exponent: it
returns a complex number, recorded here by `CagrVal.isComplex`. -/

/-- The value `((base ^ (1/years)) - 1) * 100` that calculate_cagr returns,
kept symbolic as the pair (base, years). -/
structure CagrVal where
  base : ℚ
  years : ℕ
deriving DecidableEq

/-- Whether Python pow produced a complex number: negative base with the
non-integral exponent 1/years (integral only for years = 1). -/
def CagrVal.isComplex (v : CagrVal) : Bool :=
  decide (v.base < 0 ∧ 2 ≤ v.years)

/-- The float comparison `cagr > t` for a real (non-complex) CagrVal.
On a positive base, x ↦ ((x ^ (1/years)) - 1) * 100 is strictly increasing,
so the comparison equals `base > (1 + t/100) ^ years` exactly; the tier
thresholds t are all nonnegative, keeping the transform valid. -/
def CagrVal.gtp (v : CagrVal) (t : ℚ) : Bool :=
  decide ((1 + t / 100) ^ v.years < v.base)

/-- Embedding of `calculate_cagr(values, years)`: None for fewer than 2
values; `start_value = float(values[-1])`, `end_value = float(values[0])`;
None for a non-positive start value; None for years = 0 (the
ZeroDivisionError of `1/years` is caught); otherwise the symbolic result. -/
def calculate_cagr (values : List ℚ) (years : ℕ) : Option CagrVal :=
  if values.length < 2 then none
  else
    match values.head?, values.getLast? with
    | some endv, some startv =>
        if startv ≤ 0 then none
        else if years = 0 then none
        else some ⟨endv / startv, years⟩
    | _, _ => none

/-! ## Growth score (stock/views.py, calculate_growth_score, lines 579-619) -/

/-- `revenue_values = [f.revenue for f in financials if f.revenue]`. -/
def revenueValues (financials : List Financial) : List ℚ :=
  (financials.filterMap Financial.revenue).filter (fun q => q ≠ 0)

/-- `profit_values = [f.net_income for f in financials if f.net_income and
f.net_income > 0]`. -/
def profitValues (financials : List Financial) : List ℚ :=
  (financials.filterMap Financial.net_income).filter (fun q => 0 < q)

/-- Revenue CAGR tiers: `> 15 -> 12.5, > 10 -> 10, > 5 -> 7.5, > 0 -> 5`. -/
def revenueCagrTier (v : CagrVal) : ℚ :=
  if v.gtp 15 then 12.5
  else if v.gtp 10 then 10
  else if v.gtp 5 then 7.5
  else if v.gtp 0 then 5
  else 0

/-- Net-income CAGR tiers: `> 20 -> 12.5, > 15 -> 10, > 10 -> 7.5, > 5 -> 5`. -/
def profitCagrTier (v : CagrVal) : ℚ :=
  if v.gtp 20 then 12.5
  else if v.gtp 15 then 10
  else if v.gtp 10 then 7.5
  else if v.gtp 5 then 5
  else 0

/-- One block of calculate_growth_score: with at least 3 values, compute the
3-period CAGR; `if cagr:` skips a falsy (None or 0.0, i.e. base = 1) value;
comparing a complex CAGR with a number raises TypeError — the Bool records
that the surrounding `except` then returns the score accumulated so far. -/
def growthBlock (values : List ℚ) (tier : CagrVal → ℚ) : ℚ × Bool :=
  if 3 ≤ values.length then
    match calculate_cagr values 3 with
    | some v =>
        if v.isComplex then (0, true)
        else if v.base = 1 then (0, false)
        else (tier v, false)
    | none => (0, false)
  else (0, false)

/-- `calculate_growth_score`: 0 for fewer than 3 statements; otherwise the
revenue block, then (unless it raised) the net-income block on the
positive-profit series. -/
def calculate_growth_score (financials : List Financial) : ℚ :=
  if financials.length < 3 then 0
  else if (growthBlock (revenueValues financials) revenueCagrTier).2 then
    (growthBlock (revenueValues financials) revenueCagrTier).1
  else
    (growthBlock (revenueValues financials) revenueCagrTier).1 +
      (growthBlock (profitValues financials) profitCagrTier).1

/-! ## Score record and rank bucket -/

/-- Python `round(x, 1)` at integer base: round half to even. -/
def roundHalfEven (x : ℚ) : ℤ :=
  let f := ⌊x⌋
  let r := x - f
  if r < 1 / 2 then f
  else if 1 / 2 < r then f + 1
  else if f % 2 = 0 then f else f + 1

/-- Python `round(x, 1)`: one decimal digit, half to even. -/
def round1 (q : ℚ) : ℚ := (roundHalfEven (q * 10) : ℚ) / 10

/-- The score fields of the result dict built by
calculate_stock_scores_complete. -/
structure ScoreResult where
  valuation_score : ℚ
  profitability_score : ℚ
  growth_score : ℚ
  safety_score : ℚ
  total_score : ℚ
deriving DecidableEq

/-- `f(advanced) if advanced else 0`. -/
def advScore (f : AdvancedIndicator → ℚ) : Option AdvancedIndicator → ℚ
  | some a => f a
  | none => 0

/-- `calculate_stock_scores_complete` (stock/views.py, lines 435-470): the
four sub-scores (profitability and safety are 0 without an advanced row),
their sum as total, every field rounded to one decimal. -/
def calculate_stock_scores_complete (indicator : Indicator)
    (advanced : Option AdvancedIndicator) (financials : List Financial) : ScoreResult :=
  let valuation := calculate_valuation_score indicator
  let profitability := advScore calculate_profitability_score advanced
  let growth := calculate_growth_score financials
  let safety := advScore calculate_safety_score advanced
  { valuation_score := round1 valuation
    profitability_score := round1 profitability
    growth_score := round1 growth
    safety_score := round1 safety
    total_score := round1 (valuation + profitability + growth + safety) }

/-- The letter-rank mapping of Command.calculate_comprehensive_score
(stock/management/commands/update_stock_data.py, lines 322-334). -/
def rank_bucket (total : ℚ) : String :=
  if 80 ≤ total then "S"
  else if 65 ≤ total then "A"
  else if 50 ≤ total then "B"
  else if 35 ≤ total then "C"
  else "D"

/-! ## Tier-value lemmas: every tier component is one of the six constants
0, 2.5, 5, 7.5, 10, 12.5, hence a half-integer between 0 and 12.5. -/

/-- The values a 12.5-point tier component can take. -/
def TierVal (q : ℚ) : Prop :=
  q = 12.5 ∨ q = 10 ∨ q = 7.5 ∨ q = 5 ∨ q = 2.5 ∨ q = 0

theorem tierVal_halfint {q : ℚ} (h : TierVal q) :
    ∃ n : ℤ, q = (n : ℚ) / 2 ∧ 0 ≤ n ∧ n ≤ 25 := by
  rcases h with rfl | rfl | rfl | rfl | rfl | rfl
  · exact ⟨25, by norm_num⟩
  · exact ⟨20, by norm_num⟩
  · exact ⟨15, by norm_num⟩
  · exact ⟨10, by norm_num⟩
  · exact ⟨5, by norm_num⟩
  · exact ⟨0, by norm_num⟩

theorem perTier_tierVal (x : ℚ) : TierVal (perTier x) := by
  unfold perTier TierVal; split_ifs <;> norm_num

theorem pbrTier_tierVal (x : ℚ) : TierVal (pbrTier x) := by
  unfold pbrTier TierVal; split_ifs <;> norm_num

theorem roeTier_tierVal (x : ℚ) : TierVal (roeTier x) := by
  unfold roeTier TierVal; split_ifs <;> norm_num

theorem roaTier_tierVal (x : ℚ) : TierVal (roaTier x) := by
  unfold roaTier TierVal; split_ifs <;> norm_num

theorem equityRatioTier_tierVal (x : ℚ) : TierVal (equityRatioTier x) := by
  unfold equityRatioTier TierVal; split_ifs <;> norm_num

theorem currentRatioTier_tierVal (x : ℚ) : TierVal (currentRatioTier x) := by
  unfold currentRatioTier TierVal; split_ifs <;> norm_num

theorem revenueCagrTier_tierVal (v : CagrVal) : TierVal (revenueCagrTier v) := by
  unfold revenueCagrTier TierVal; split_ifs <;> norm_num

theorem profitCagrTier_tierVal (v : CagrVal) : TierVal (profitCagrTier v) := by
  unfold profitCagrTier TierVal; split_ifs <;> norm_num

theorem optTier_tierVal {tier : ℚ → ℚ} (h : ∀ x, TierVal (tier x)) (v : Option ℚ) :
    TierVal (optTier tier v) := by
  cases v with
  | none => exact Or.inr (Or.inr (Or.inr (Or.inr (Or.inr rfl))))
  | some q =>
      simp only [optTier]
      split_ifs
      · exact Or.inr (Or.inr (Or.inr (Or.inr (Or.inr rfl))))
      · exact h q

/-- A sub-score (sum of two tier components) is a half-integer in [0, 25]. -/
theorem subScore_spec {a b : ℚ} (ha : TierVal a) (hb : TierVal b) :
    ∃ n : ℤ, a + b = (n : ℚ) / 2 ∧ 0 ≤ n ∧ n ≤ 50 := by
  obtain ⟨m, hm, hm0, hm25⟩ := tierVal_halfint ha
  obtain ⟨n, hn, hn0, hn25⟩ := tierVal_halfint hb
  refine ⟨m + n, ?_, by omega, by omega⟩
  rw [hm, hn]
  push_cast
  ring

theorem valuation_spec (i : Indicator) :
    ∃ n : ℤ, calculate_valuation_score i = (n : ℚ) / 2 ∧ 0 ≤ n ∧ n ≤ 50 :=
  subScore_spec (optTier_tierVal perTier_tierVal _) (optTier_tierVal pbrTier_tierVal _)

theorem profitability_spec (advanced : Option AdvancedIndicator) :
    ∃ n : ℤ, advScore calculate_profitability_score advanced = (n : ℚ) / 2 ∧ 0 ≤ n ∧ n ≤ 50 := by
  cases advanced with
  | none => exact ⟨0, by norm_num [advScore]⟩
  | some a =>
      exact subScore_spec (optTier_tierVal roeTier_tierVal _) (optTier_tierVal roaTier_tierVal _)

theorem safety_spec (advanced : Option AdvancedIndicator) :
    ∃ n : ℤ, advScore calculate_safety_score advanced = (n : ℚ) / 2 ∧ 0 ≤ n ∧ n ≤ 50 := by
  cases advanced with
  | none => exact ⟨0, by norm_num [advScore]⟩
  | some a =>
      exact subScore_spec (optTier_tierVal equityRatioTier_tierVal _)
        (optTier_tierVal currentRatioTier_tierVal _)

theorem growthBlock_tierVal (values : List ℚ) (tier : CagrVal → ℚ)
    (h : ∀ v, TierVal (tier v)) : TierVal (growthBlock values tier).1 := by
  rw [growthBlock]
  split_ifs
  · cases hc : calculate_cagr values 3 with
    | none => exact Or.inr (Or.inr (Or.inr (Or.inr (Or.inr rfl))))
    | some v =>
        dsimp only
        split_ifs
        · exact Or.inr (Or.inr (Or.inr (Or.inr (Or.inr rfl))))
        · exact Or.inr (Or.inr (Or.inr (Or.inr (Or.inr rfl))))
        · exact h v
  · exact Or.inr (Or.inr (Or.inr (Or.inr (Or.inr rfl))))

theorem growth_spec (financials : List Financial) :
    ∃ n : ℤ, calculate_growth_score financials = (n : ℚ) / 2 ∧ 0 ≤ n ∧ n ≤ 50 := by
  rw [calculate_growth_score]
  split_ifs with h1 h2
  · exact ⟨0, by norm_num⟩
  · obtain ⟨m, hm, hm0, hm25⟩ :=
      tierVal_halfint (growthBlock_tierVal (revenueValues financials) _ revenueCagrTier_tierVal)
    exact ⟨m, hm, hm0, by omega⟩
  · exact subScore_spec (growthBlock_tierVal (revenueValues financials) _ revenueCagrTier_tierVal)
      (growthBlock_tierVal (profitValues financials) _ profitCagrTier_tierVal)

/-! ## Rounding lemmas: round(x, 1) is the identity on half-integers. -/

theorem roundHalfEven_intCast (n : ℤ) : roundHalfEven (n : ℚ) = n := by
  norm_num [roundHalfEven]

theorem round1_half (n : ℤ) : round1 ((n : ℚ) / 2) = (n : ℚ) / 2 := by
  unfold round1
  have h : ((n : ℚ) / 2) * 10 = ((5 * n : ℤ) : ℚ) := by push_cast; ring
  rw [h, roundHalfEven_intCast]
  push_cast
  ring

/-- C1: for every input record — any combination of present and absent PER,
PBR, ROE, ROA, revenue and net-income series, equity ratio and current
ratio — each of the four sub-scores lies in [0, 25], the total score equals
their sum and lies in [0, 100]; and the rank-bucket mapping is total:
total >= 80 gives S, >= 65 A, >= 50 B, >= 35 C, else D, and every total
receives one of the five letters. -/
theorem score_bounds_and_rank :
    (∀ (indicator : Indicator) (advanced : Option AdvancedIndicator)
        (financials : List Financial) (r : ScoreResult),
        calculate_stock_scores_complete indicator advanced financials = r →
        (0 ≤ r.valuation_score ∧ r.valuation_score ≤ 25) ∧
        (0 ≤ r.profitability_score ∧ r.profitability_score ≤ 25) ∧
        (0 ≤ r.growth_score ∧ r.growth_score ≤ 25) ∧
        (0 ≤ r.safety_score ∧ r.safety_score ≤ 25) ∧
        r.total_score =
          r.valuation_score + r.profitability_score + r.growth_score + r.safety_score ∧
        (0 ≤ r.total_score ∧ r.total_score ≤ 100)) ∧
    (∀ t : ℚ,
        (80 ≤ t → rank_bucket t = "S") ∧
        (65 ≤ t → t < 80 → rank_bucket t = "A") ∧
        (50 ≤ t → t < 65 → rank_bucket t = "B") ∧
        (35 ≤ t → t < 50 → rank_bucket t = "C") ∧
        (t < 35 → rank_bucket t = "D") ∧
        (rank_bucket t = "S" ∨ rank_bucket t = "A" ∨ rank_bucket t = "B" ∨
          rank_bucket t = "C" ∨ rank_bucket t = "D")) := by
  constructor
  · intro indicator advanced financials r hr
    obtain ⟨nv, hv, hv0, hv50⟩ := valuation_spec indicator
    obtain ⟨np, hp, hp0, hp50⟩ := profitability_spec advanced
    obtain ⟨ng, hg, hg0, hg50⟩ := growth_spec financials
    obtain ⟨ns, hs, hs0, hs50⟩ := safety_spec advanced
    subst hr
    simp only [calculate_stock_scores_complete]
    rw [hv, hp, hg, hs]
    have htot : ((nv : ℚ) / 2 + (np : ℚ) / 2 + (ng : ℚ) / 2 + (ns : ℚ) / 2) =
        ((nv + np + ng + ns : ℤ) : ℚ) / 2 := by push_cast; ring
    rw [htot, round1_half, round1_half, round1_half, round1_half, round1_half]
    have cv0 : (0 : ℚ) ≤ (nv : ℚ) := by exact_mod_cast hv0
    have cv5 : (nv : ℚ) ≤ 50 := by exact_mod_cast hv50
    have cp0 : (0 : ℚ) ≤ (np : ℚ) := by exact_mod_cast hp0
    have cp5 : (np : ℚ) ≤ 50 := by exact_mod_cast hp50
    have cg0 : (0 : ℚ) ≤ (ng : ℚ) := by exact_mod_cast hg0
    have cg5 : (ng : ℚ) ≤ 50 := by exact_mod_cast hg50
    have cs0 : (0 : ℚ) ≤ (ns : ℚ) := by exact_mod_cast hs0
    have cs5 : (ns : ℚ) ≤ 50 := by exact_mod_cast hs50
    refine ⟨⟨by linarith, by linarith⟩, ⟨by linarith, by linarith⟩,
      ⟨by linarith, by linarith⟩, ⟨by linarith, by linarith⟩,
      by push_cast; ring, by push_cast; linarith, by push_cast; linarith⟩
  · intro t
    refine ⟨?_, ?_, ?_, ?_, ?_, ?_⟩ <;> unfold rank_bucket
    · intro h
      rw [if_pos h]
    · intro h1 h2
      rw [if_neg (by linarith), if_pos h1]
    · intro h1 h2
      rw [if_neg (by linarith), if_neg (by linarith), if_pos h1]
    · intro h1 h2
      rw [if_neg (by linarith), if_neg (by linarith), if_neg (by linarith), if_pos h1]
    · intro h
      rw [if_neg (by linarith), if_neg (by linarith), if_neg (by linarith),
        if_neg (by linarith)]
    · split_ifs <;> simp

/-- Witness for C1 at a concrete record: the empty indicator with no
advanced row and no financial history scores 0 everywhere, and rank bucket
82 is S. -/
theorem score_bounds_and_rank_witness :
    ((0 : ℚ) ≤ (calculate_stock_scores_complete ⟨none, none, none, none, none⟩ none []).total_score ∧
      (calculate_stock_scores_complete ⟨none, none, none, none, none⟩ none []).total_score ≤ 100) ∧
    rank_bucket 82 = "S" :=
  ⟨((score_bounds_and_rank.1 ⟨none, none, none, none, none⟩ none [] _ rfl).2.2.2.2.2),
   score_bounds_and_rank.2 82 |>.1 (by norm_num)⟩

/-- C7: end-to-end scenario.  PER 7, PBR 0.6, ROE 22, ROA 11, equity ratio
75, current ratio 2.2, and a 3-year statement history whose revenue series
has a compound growth of exactly 16 percent (1000000 to 1560896 = 1000000
times 1.16 cubed) and whose net-income series one of exactly 21 percent
(1000000 to 1771561 = 1000000 times 1.21 cubed): every sub-score is 25, the
total is 100, and the rank bucket of 100 is S. -/
theorem end_to_end_scenario :
    calculate_stock_scores_complete ⟨some 7, some 0.6, none, none, none⟩
      (some ⟨some 22, some 11, some 75, some 2.2, none, none⟩)
      [⟨2024, some 1560896, some 1771561⟩, ⟨2023, some 1200000, some 1300000⟩,
        ⟨2022, some 1000000, some 1000000⟩] =
      ⟨25, 25, 25, 25, 100⟩ ∧
    rank_bucket 100 = "S" := by
  have hval : calculate_valuation_score ⟨some 7, some 0.6, none, none, none⟩ = 25 := by
    norm_num [calculate_valuation_score, optTier, perTier, pbrTier]
  have hprof : calculate_profitability_score ⟨some 22, some 11, some 75, some 2.2, none, none⟩ = 25 := by
    norm_num [calculate_profitability_score, optTier, roeTier, roaTier]
  have hsaf : calculate_safety_score ⟨some 22, some 11, some 75, some 2.2, none, none⟩ = 25 := by
    norm_num [calculate_safety_score, optTier, equityRatioTier, currentRatioTier]
  have hrev : revenueValues
      [⟨2024, some 1560896, some 1771561⟩, ⟨2023, some 1200000, some 1300000⟩,
        ⟨2022, some 1000000, some 1000000⟩] = [1560896, 1200000, 1000000] := by
    norm_num [revenueValues, List.filterMap_cons]
  have hpro : profitValues
      [⟨2024, some 1560896, some 1771561⟩, ⟨2023, some 1200000, some 1300000⟩,
        ⟨2022, some 1000000, some 1000000⟩] = [1771561, 1300000, 1000000] := by
    norm_num [profitValues, List.filterMap_cons]
  have hcr : calculate_cagr [(1560896 : ℚ), 1200000, 1000000] 3 =
      some ⟨1560896 / 1000000, 3⟩ := rfl
  have hcp : calculate_cagr [(1771561 : ℚ), 1300000, 1000000] 3 =
      some ⟨1771561 / 1000000, 3⟩ := rfl
  have hbr : growthBlock [(1560896 : ℚ), 1200000, 1000000] revenueCagrTier = (12.5, false) := by
    rw [growthBlock, if_pos (by norm_num), hcr]
    dsimp only
    rw [if_neg (by norm_num [CagrVal.isComplex]), if_neg (by norm_num)]
    norm_num [revenueCagrTier, CagrVal.gtp]
  have hbp : growthBlock [(1771561 : ℚ), 1300000, 1000000] profitCagrTier = (12.5, false) := by
    rw [growthBlock, if_pos (by norm_num), hcp]
    dsimp only
    rw [if_neg (by norm_num [CagrVal.isComplex]), if_neg (by norm_num)]
    norm_num [profitCagrTier, CagrVal.gtp]
  have hgro : calculate_growth_score
      [⟨2024, some 1560896, some 1771561⟩, ⟨2023, some 1200000, some 1300000⟩,
        ⟨2022, some 1000000, some 1000000⟩] = 25 := by
    rw [calculate_growth_score, if_neg (by norm_num), hrev, hpro, hbr, hbp]
    norm_num
  have h50 := round1_half 50
  have h200 := round1_half 200
  norm_num at h50 h200
  constructor
  · simp only [calculate_stock_scores_complete, advScore]
    rw [hval, hprof, hsaf, hgro]
    norm_num [h50, h200]
  · norm_num [rank_bucket]

/-- C3: calculate_cagr returns Absent for fewer than 2 values and for a
non-positive oldest value, and otherwise computes from the first and last
values of the series (`end_value = values[0]`, `start_value = values[-1]`).
The math-domain clause of the claim FAILS on the code: Python 3 `pow` with
a negative base and fractional exponent does not raise (the except clause
catches only ValueError and ZeroDivisionError and would turn it into None)
— it returns a complex number, which calculate_cagr passes through: on
[-8, 5, 1] with 3 periods the code returns the complex
`((-8) ^ (1/3) - 1) * 100`, not Absent. -/
theorem calculate_cagr_spec :
    (∀ (values : List ℚ) (years : ℕ), values.length < 2 → calculate_cagr values years = none) ∧
    (∀ (values : List ℚ) (years : ℕ) (startv : ℚ),
        values.getLast? = some startv → startv ≤ 0 → calculate_cagr values years = none) ∧
    (∀ (values : List ℚ) (years : ℕ) (endv startv : ℚ), 2 ≤ values.length →
        values.head? = some endv → values.getLast? = some startv → 0 < startv → years ≠ 0 →
        calculate_cagr values years = some ⟨endv / startv, years⟩) ∧
    (calculate_cagr [-8, 5, 1] 3 = some ⟨-8, 3⟩ ∧ CagrVal.isComplex ⟨-8, 3⟩ = true) := by
  refine ⟨?_, ?_, ?_, ?_, ?_⟩
  · intro values years h
    rw [calculate_cagr, if_pos h]
  · intro values years startv h1 h2
    by_cases h3 : values.length < 2
    · rw [calculate_cagr, if_pos h3]
    · rw [calculate_cagr, if_neg h3]
      cases hh : values.head? with
        | none =>
            cases values with
            | nil => rfl
            | cons a l => simp at hh
        | some endv =>
            rw [h1]
            dsimp only
            rw [if_pos h2]
  · intro values years endv startv hlen h1 h2 h3 h4
    rw [calculate_cagr, if_neg (by omega), h1, h2]
    dsimp only
    rw [if_neg (not_le.mpr h3), if_neg h4]
  · have hh : (([-8, 5, 1] : List ℚ)).head? = some (-8) := rfl
    have hl : (([-8, 5, 1] : List ℚ)).getLast? = some 1 := rfl
    rw [calculate_cagr, if_neg (by norm_num), hh, hl]
    dsimp only
    rw [if_neg (by norm_num), if_neg (by norm_num)]
    norm_num
  · norm_num [CagrVal.isComplex]

/-- Witness for C3 at concrete inputs: a single-value series is Absent, a
series whose oldest value is 0 is Absent, and [130, 110, 100] over 3
periods gives base 130/100 over 3 years. -/
theorem calculate_cagr_spec_witness :
    calculate_cagr [(5 : ℚ)] 3 = none ∧
    calculate_cagr [(130 : ℚ), 0] 3 = none ∧
    calculate_cagr [(130 : ℚ), 110, 100] 3 = some ⟨130 / 100, 3⟩ :=
  ⟨calculate_cagr_spec.1 [(5 : ℚ)] 3 (by norm_num),
   calculate_cagr_spec.2.1 [(130 : ℚ), 0] 3 0 rfl le_rfl,
   calculate_cagr_spec.2.2.1 [(130 : ℚ), 110, 100] 3 130 100 (by norm_num) rfl rfl
     (by norm_num) (by norm_num)⟩

/-! ## Stable sort

Python `sorted(seq, key=k, reverse=r)` is a stable sort: elements that
compare equal keep their original relative order (also with reverse=True).
A stable sort's output is uniquely determined by the strict precedence
relation (a must come before b) plus the input order on ties, so insertion
sort with strict precedence is extensionally Python's sorted. -/

/-- Insert x after every element that strictly precedes it and before the
first that does not — in particular before every element it ties with,
which together with processing order makes the sort stable. -/
def insertStable (lt : α → α → Bool) (x : α) : List α → List α
  | [] => [x]
  | y :: ys => if lt y x then y :: insertStable lt x ys else x :: y :: ys

/-- Stable sort by the strict precedence `lt`. -/
def stableSort (lt : α → α → Bool) : List α → List α
  | [] => []
  | x :: xs => insertStable lt x (stableSort lt xs)

theorem mem_insertStable (lt : α → α → Bool) (x z : α) (l : List α) :
    z ∈ insertStable lt x l ↔ z = x ∨ z ∈ l := by
  induction l with
  | nil => simp [insertStable]
  | cons y ys ih =>
      rw [insertStable]
      split_ifs
      · simp only [List.mem_cons, ih]
        tauto
      · simp only [List.mem_cons]

theorem mem_stableSort (lt : α → α → Bool) (z : α) (l : List α) :
    z ∈ stableSort lt l ↔ z ∈ l := by
  induction l with
  | nil => simp [stableSort]
  | cons x xs ih =>
      rw [stableSort, mem_insertStable, ih]
      simp

/-- The invariant a stable sort establishes when its input is strictly
ordered by `idx`: no strict inversion remains, and tied elements stay in
ascending `idx` order. -/
def SortInv (lt : α → α → Bool) (idx : α → ℕ) (a b : α) : Prop :=
  lt b a = false ∧ ((lt a b = false ∧ lt b a = false) → idx a < idx b)

theorem insertStable_pairwise {lt : α → α → Bool} {idx : α → ℕ}
    (asym : ∀ a b, lt a b = true → lt b a = false)
    (negtrans : ∀ a b c, lt b a = false → lt c b = false → lt c a = false)
    (x : α) (l : List α) (hl : l.Pairwise (SortInv lt idx))
    (hx : ∀ y ∈ l, idx x < idx y) :
    (insertStable lt x l).Pairwise (SortInv lt idx) := by
  induction l with
  | nil => simp [insertStable, List.Pairwise]
  | cons y ys ih =>
      rw [List.pairwise_cons] at hl
      rw [insertStable]
      split_ifs with h
      · rw [List.pairwise_cons]
        refine ⟨?_, ih hl.2 (fun z hz => hx z (List.mem_cons_of_mem _ hz))⟩
        intro z hz
        rcases (mem_insertStable lt x z ys).mp hz with rfl | hz2
        · exact ⟨asym y z h, fun htie => absurd htie.1 (by simp [h])⟩
        · exact hl.1 z hz2
      · have hyx : lt y x = false := by
          revert h
          cases lt y x <;> simp
        rw [List.pairwise_cons]
        constructor
        · intro z hz
          rcases List.mem_cons.mp hz with rfl | hz2
          · exact ⟨hyx, fun _ => hx z (List.mem_cons_self _ _)⟩
          · have hzy : lt z y = false := (hl.1 z hz2).1
            exact ⟨negtrans x y z hyx hzy, fun _ => hx z (List.mem_cons_of_mem _ hz2)⟩
        · rw [List.pairwise_cons]
          exact ⟨hl.1, hl.2⟩

theorem stableSort_pairwise {lt : α → α → Bool} {idx : α → ℕ}
    (asym : ∀ a b, lt a b = true → lt b a = false)
    (negtrans : ∀ a b c, lt b a = false → lt c b = false → lt c a = false)
    (l : List α) (hl : l.Pairwise (fun a b => idx a < idx b)) :
    (stableSort lt l).Pairwise (SortInv lt idx) := by
  induction l with
  | nil => simp [stableSort, List.Pairwise]
  | cons x xs ih =>
      rw [List.pairwise_cons] at hl
      rw [stableSort]
      exact insertStable_pairwise asym negtrans x (stableSort lt xs) (ih hl.2)
        (fun y hy => hl.1 y ((mem_stableSort lt y xs).mp hy))

/-! ## Consecutive profit-growth streak
(stock/views.py, calculate_consecutive_profit_years, lines 1307-1325) -/

/-- `sorted(financials, key=lambda x: x.year, reverse=True)`: year
descending, stable. -/
def sortByYearDesc (financials : List Financial) : List Financial :=
  stableSort (fun a b => decide (b.year < a.year)) financials

/-- The counting loop: `current.net_income and previous.net_income and
current.net_income > previous.net_income` increments, anything else breaks.
Truthiness makes a present net income of exactly 0 falsy. -/
def profitStreakLoop : List Financial → ℕ
  | current :: previous :: rest =>
      if truthy current.net_income = true ∧ truthy previous.net_income = true ∧
          current.net_income.getD 0 > previous.net_income.getD 0 then
        1 + profitStreakLoop (previous :: rest)
      else 0
  | _ => 0

/-- `calculate_consecutive_profit_years`: 0 for fewer than 2 records, else
the counting loop over the year-descending sort. -/
def calculate_consecutive_profit_years (financials : List Financial) : ℕ :=
  if financials.length < 2 then 0
  else profitStreakLoop (sortByYearDesc financials)

/-- The walk exactly as claim C4 words it: increment while both values are
PRESENT and the newer strictly exceeds the older.  (Used only to compare
the claim against the code.) -/
def claimStreakWalk : List Financial → ℕ
  | current :: previous :: rest =>
      if current.net_income.isSome = true ∧ previous.net_income.isSome = true ∧
          current.net_income.getD 0 > previous.net_income.getD 0 then
        1 + claimStreakWalk (previous :: rest)
      else 0
  | _ => 0

/-- The claim's walk amended as the code forces: a present value equal to
zero is treated like a missing one (Python truthiness) and stops the
streak. -/
def claimStreakWalkAmended : List Financial → ℕ
  | current :: previous :: rest =>
      if current.net_income.isSome = true ∧ current.net_income ≠ some 0 ∧
          previous.net_income.isSome = true ∧ previous.net_income ≠ some 0 ∧
          current.net_income.getD 0 > previous.net_income.getD 0 then
        1 + claimStreakWalkAmended (previous :: rest)
      else 0
  | _ => 0

theorem profitStreakLoop_single (x : Financial) : profitStreakLoop [x] = 0 := rfl

theorem claimStreakWalk_single (x : Financial) : claimStreakWalk [x] = 0 := rfl

theorem truthy_iff (o : Option ℚ) : truthy o = true ↔ o.isSome = true ∧ o ≠ some 0 := by
  cases o with
  | none => simp [truthy]
  | some q => simp [truthy]

/-- Counterexample to C4 as stated: on the two-record series with net
incomes 0 (year 2024) and -5 (year 2023) — already year-descending — the
claim's walk counts one improvement year (0 exceeds -5 and both values are
present), but the code returns 0, because Python truthiness treats the
present value 0 as missing. -/
theorem consecutive_profit_years_counterexample :
    calculate_consecutive_profit_years
        [⟨2024, none, some 0⟩, ⟨2023, none, some (-5)⟩] = 0 ∧
    claimStreakWalk [⟨2024, none, some 0⟩, ⟨2023, none, some (-5)⟩] = 1 ∧
    sortByYearDesc [⟨2024, none, some 0⟩, ⟨2023, none, some (-5)⟩] =
      [⟨2024, none, some 0⟩, ⟨2023, none, some (-5)⟩] := by
  have hsort : sortByYearDesc [⟨2024, none, some 0⟩, ⟨2023, none, some (-5)⟩] =
      [⟨2024, none, some 0⟩, ⟨2023, none, some (-5)⟩] := rfl
  refine ⟨?_, ?_, hsort⟩
  · rw [calculate_consecutive_profit_years, if_neg (by norm_num), hsort, profitStreakLoop]
    rw [if_neg ?_]
    intro h
    have h1 := h.1
    rw [truthy] at h1
    simp at h1
  · rw [claimStreakWalk, if_pos ⟨by simp, by simp, by norm_num⟩, claimStreakWalk_single]

/-- C4 (amended): calculate_consecutive_profit_years returns 0 for fewer
than 2 records and otherwise walks the year-descending series newest to
oldest, counting while both net incomes are present AND NON-ZERO and the
newer strictly exceeds the older, stopping at the first failure; the series
130, 120, 110, 100 (newest first) yields 3 and the series 100, 120, 110
yields 0. -/
theorem consecutive_profit_years_amended :
    (∀ financials : List Financial, financials.length < 2 →
        calculate_consecutive_profit_years financials = 0) ∧
    (∀ financials : List Financial, 2 ≤ financials.length →
        calculate_consecutive_profit_years financials =
          claimStreakWalkAmended (sortByYearDesc financials)) ∧
    calculate_consecutive_profit_years
        [⟨2024, none, some 130⟩, ⟨2023, none, some 120⟩,
          ⟨2022, none, some 110⟩, ⟨2021, none, some 100⟩] = 3 ∧
    calculate_consecutive_profit_years
        [⟨2024, none, some 100⟩, ⟨2023, none, some 120⟩, ⟨2022, none, some 110⟩] = 0 := by
  have hloop : ∀ l : List Financial, profitStreakLoop l = claimStreakWalkAmended l := by
    intro l
    induction l with
    | nil => rfl
    | cons current rest ih =>
        cases rest with
        | nil => rfl
        | cons previous rest2 =>
            rw [profitStreakLoop, claimStreakWalkAmended]
            by_cases h : truthy current.net_income = true ∧ truthy previous.net_income = true ∧
                current.net_income.getD 0 > previous.net_income.getD 0
            · obtain ⟨hc1, hc2⟩ := (truthy_iff _).mp h.1
              obtain ⟨hp1, hp2⟩ := (truthy_iff _).mp h.2.1
              rw [if_pos h, if_pos ⟨hc1, hc2, hp1, hp2, h.2.2⟩]
              rw [ih]
            · rw [if_neg h, if_neg ?_]
              intro hA
              exact h ⟨(truthy_iff _).mpr ⟨hA.1, hA.2.1⟩,
                (truthy_iff _).mpr ⟨hA.2.2.1, hA.2.2.2.1⟩, hA.2.2.2.2⟩
  refine ⟨?_, ?_, ?_, ?_⟩
  · intro financials h
    rw [calculate_consecutive_profit_years, if_pos h]
  · intro financials h
    rw [calculate_consecutive_profit_years, if_neg (by omega), hloop]
  · have hsort : sortByYearDesc
        [⟨2024, none, some 130⟩, ⟨2023, none, some 120⟩,
          ⟨2022, none, some 110⟩, ⟨2021, none, some 100⟩] =
        [⟨2024, none, some 130⟩, ⟨2023, none, some 120⟩,
          ⟨2022, none, some 110⟩, ⟨2021, none, some 100⟩] := rfl
    rw [calculate_consecutive_profit_years, if_neg (by norm_num), hsort]
    rw [profitStreakLoop, if_pos ⟨by norm_num [truthy], by norm_num [truthy], by norm_num⟩]
    rw [profitStreakLoop, if_pos ⟨by norm_num [truthy], by norm_num [truthy], by norm_num⟩]
    rw [profitStreakLoop, if_pos ⟨by norm_num [truthy], by norm_num [truthy], by norm_num⟩]
    rw [profitStreakLoop_single]
  · have hsort : sortByYearDesc
        [⟨2024, none, some 100⟩, ⟨2023, none, some 120⟩, ⟨2022, none, some 110⟩] =
        [⟨2024, none, some 100⟩, ⟨2023, none, some 120⟩, ⟨2022, none, some 110⟩] := rfl
    rw [calculate_consecutive_profit_years, if_neg (by norm_num), hsort]
    rw [profitStreakLoop, if_neg ?_]
    intro h
    have h2 := h.2.2
    norm_num at h2

/-- Witness for C4 (amended) at concrete inputs: the empty and the
singleton series return 0, and a two-record improving series returns 1 via
the amended walk. -/
theorem consecutive_profit_years_amended_witness :
    calculate_consecutive_profit_years [] = 0 ∧
    calculate_consecutive_profit_years [⟨2024, none, some 7⟩] = 0 ∧
    calculate_consecutive_profit_years [⟨2024, none, some 9⟩, ⟨2023, none, some 7⟩] =
      claimStreakWalkAmended (sortByYearDesc [⟨2024, none, some 9⟩, ⟨2023, none, some 7⟩]) :=
  ⟨consecutive_profit_years_amended.1 [] (by norm_num),
   consecutive_profit_years_amended.1 [⟨2024, none, some 7⟩] (by norm_num),
   consecutive_profit_years_amended.2.1 _ (by norm_num)⟩

/-! ## Screening form and predicate filter
(stock/forms.py StockScreeningForm.clean, stock/views.py
build_complete_queryset)

The embedding covers the criteria fields the claims exercise — PER, PBR,
dividend yield, price, market cap (Indicator); ROE, ROA, equity ratio,
current ratio, one-year revenue/profit growth (AdvancedIndicator); market,
sector, size category (Stock); the streak, loss-exclusion, dividend and
custom-formula post-filters — each following the uniform source pattern
`if data.get(f): conditions &= Q(...__gte/__lte=data[f], ...date=latest)`. -/

/-- A stock with its prefetched latest rows, as the loop of
build_complete_queryset sees it. -/
structure Stock where
  code : ℕ
  market : String
  sector : String
  size_category : String
  latest_indicator : Option Indicator
  latest_advanced : Option AdvancedIndicator
  recent_financials : List Financial
deriving DecidableEq

/-- The cleaned form data.  Numeric criteria are Option ℚ (None when the
field was left empty), the streak lengths Option ℕ, text criteria are
strings with the empty string for an absent input. -/
structure FormData where
  per_min : Option ℚ
  per_max : Option ℚ
  pbr_min : Option ℚ
  pbr_max : Option ℚ
  roe_min : Option ℚ
  roe_max : Option ℚ
  roa_min : Option ℚ
  roa_max : Option ℚ
  dividend_yield_min : Option ℚ
  dividend_yield_max : Option ℚ
  price_min : Option ℚ
  price_max : Option ℚ
  market_cap_min : Option ℚ
  market_cap_max : Option ℚ
  equity_ratio_min : Option ℚ
  equity_ratio_max : Option ℚ
  current_ratio_min : Option ℚ
  current_ratio_max : Option ℚ
  revenue_growth_min : Option ℚ
  profit_growth_min : Option ℚ
  consecutive_profit_years : Option ℕ
  consecutive_dividend_years : Option ℕ
  exclude_loss_stocks : Bool
  market : String
  sector : String
  custom_formula : String
  size_category : String
deriving DecidableEq

/-- The wholly empty criteria configuration. -/
def emptyForm : FormData :=
  { per_min := none, per_max := none, pbr_min := none, pbr_max := none
    roe_min := none, roe_max := none, roa_min := none, roa_max := none
    dividend_yield_min := none, dividend_yield_max := none
    price_min := none, price_max := none
    market_cap_min := none, market_cap_max := none
    equity_ratio_min := none, equity_ratio_max := none
    current_ratio_min := none, current_ratio_max := none
    revenue_growth_min := none, profit_growth_min := none
    consecutive_profit_years := none, consecutive_dividend_years := none
    exclude_loss_stocks := false
    market := "", sector := "", custom_formula := "", size_category := "" }

/-! ### Form validation (StockScreeningForm.clean, forms.py lines 612-653) -/

/-- The errors clean() can record. -/
inductive FormError where
  /-- add_error: a range with lower bound above upper bound. -/
  | rangeInverted (field : String)
  /-- The ValidationError raised when no search field holds a condition —
  the `InvalidCriteria` condition of the specification. -/
  | noCondition
deriving DecidableEq

/-- One entry of the range check: an error iff both bounds are present and
min > max. -/
def rangeInvertedChk (mn mx : Option ℚ) : Bool :=
  match mn, mx with
  | some a, some b => decide (b < a)
  | _, _ => false

/-- `cleaned_data.get(field) is not None and != ''` for a numeric field:
presence counts, zero included. -/
def presentQ (v : Option ℚ) : Bool := v.isSome

/-- The same for the integer streak field. -/
def presentN (v : Option ℕ) : Bool := v.isSome

/-- The any-condition check of clean() over its literal search_fields list
(note: the equity/current-ratio and dividend-streak fields are not in that
list). -/
def hasCondition (d : FormData) : Bool :=
  presentQ d.per_min || presentQ d.per_max || presentQ d.pbr_min || presentQ d.pbr_max ||
  presentQ d.roe_min || presentQ d.roe_max || presentQ d.roa_min || presentQ d.roa_max ||
  presentQ d.dividend_yield_min || presentQ d.dividend_yield_max ||
  presentQ d.price_min || presentQ d.price_max ||
  presentQ d.market_cap_min || presentQ d.market_cap_max ||
  presentN d.consecutive_profit_years ||
  presentQ d.revenue_growth_min || presentQ d.profit_growth_min ||
  decide (d.market ≠ "") || decide (d.sector ≠ "") || decide (d.custom_formula ≠ "")

/-- clean(): the recorded range errors, then the ValidationError when no
search condition was supplied.  `is_valid()` is `formErrors d = []`. -/
def formErrors (d : FormData) : List FormError :=
  (if rangeInvertedChk d.per_min d.per_max then [FormError.rangeInverted "PER"] else []) ++
  (if rangeInvertedChk d.pbr_min d.pbr_max then [FormError.rangeInverted "PBR"] else []) ++
  (if rangeInvertedChk d.roe_min d.roe_max then [FormError.rangeInverted "ROE"] else []) ++
  (if rangeInvertedChk d.roa_min d.roa_max then [FormError.rangeInverted "ROA"] else []) ++
  (if rangeInvertedChk d.dividend_yield_min d.dividend_yield_max then
    [FormError.rangeInverted "dividend_yield"] else []) ++
  (if rangeInvertedChk d.price_min d.price_max then [FormError.rangeInverted "price"] else []) ++
  (if rangeInvertedChk d.market_cap_min d.market_cap_max then
    [FormError.rangeInverted "market_cap"] else []) ++
  (if hasCondition d then [] else [FormError.noCondition])

/-! ### Range predicates (Django Q lookups over the latest-dated rows) -/

/-- The latest-indicator column of a stock, NULL when the row or the column
is missing. -/
def indicatorField (s : Stock) (f : Indicator → Option ℚ) : Option ℚ :=
  match s.latest_indicator with
  | some i => f i
  | none => none

/-- The latest-advanced column of a stock. -/
def advancedField (s : Stock) (f : AdvancedIndicator → Option ℚ) : Option ℚ :=
  match s.latest_advanced with
  | some a => f a
  | none => none

/-- SQL semantics of `field__gte=t`: NULL never satisfies a comparison. -/
def qGte (v : Option ℚ) (t : ℚ) : Bool :=
  match v with
  | some x => decide (t ≤ x)
  | none => false

/-- SQL semantics of `field__lte=t`. -/
def qLte (v : Option ℚ) (t : ℚ) : Bool :=
  match v with
  | some x => decide (x ≤ t)
  | none => false

/-- `if data.get(f): conditions &= Q(field__gte=data[f], ...)`: the
predicate is attached only for a truthy (present and non-zero) threshold;
otherwise the conjunct is absent, i.e. true. -/
def minCond (v : Option ℚ) (threshold : Option ℚ) : Bool :=
  match threshold with
  | some t => if t = 0 then true else qGte v t
  | none => true

/-- The `__lte` counterpart of `minCond`. -/
def maxCond (v : Option ℚ) (threshold : Option ℚ) : Bool :=
  match threshold with
  | some t => if t = 0 then true else qLte v t
  | none => true

/-- Market-cap bounds are entered in hundreds of millions of yen and scaled
by 10^8 before comparison (truthiness is tested on the entered value). -/
def marketCapMinCond (v : Option ℚ) (threshold : Option ℚ) : Bool :=
  match threshold with
  | some t => if t = 0 then true else qGte v (t * 100000000)
  | none => true

/-- The `__lte` counterpart of `marketCapMinCond`. -/
def marketCapMaxCond (v : Option ℚ) (threshold : Option ℚ) : Bool :=
  match threshold with
  | some t => if t = 0 then true else qLte v (t * 100000000)
  | none => true

/-! ### Text predicates -/

/-- needle is a prefix of hay. -/
def charsIsPrefixOf : List Char → List Char → Bool
  | [], _ => true
  | _ :: _, [] => false
  | a :: as, b :: bs => a = b && charsIsPrefixOf as bs

/-- needle occurs contiguously in hay. -/
def charsContains (needle : List Char) : List Char → Bool
  | [] => charsIsPrefixOf needle []
  | c :: rest => charsIsPrefixOf needle (c :: rest) || charsContains needle rest

/-- Django `field__icontains=q`: case-insensitive containment. -/
def icontains (hay needle : String) : Bool :=
  charsContains (pyLower needle).data (pyLower hay).data

/-- `if data.get('market'): conditions &= Q(market__icontains=data['market'])`
(and the same for sector): skipped for an empty query string. -/
def textCond (field query : String) : Bool :=
  if query = "" then true else icontains field query

/-- `Q(size_category=data['size_category'])`, skipped when empty. -/
def sizeCond (field query : String) : Bool :=
  if query = "" then true else decide (field = query)

/-- The conjunction of Q conditions of build_complete_queryset over one
stock (views.py lines 209-319): basic-indicator ranges, then — only when an
advanced-indicator date exists at all — the advanced ranges, then the
market/sector/size conditions. -/
def matchesConditions (d : FormData) (hasAdvancedDate : Bool) (s : Stock) : Bool :=
  minCond (indicatorField s Indicator.per) d.per_min &&
  maxCond (indicatorField s Indicator.per) d.per_max &&
  minCond (indicatorField s Indicator.pbr) d.pbr_min &&
  maxCond (indicatorField s Indicator.pbr) d.pbr_max &&
  minCond (indicatorField s Indicator.dividend_yield) d.dividend_yield_min &&
  maxCond (indicatorField s Indicator.dividend_yield) d.dividend_yield_max &&
  minCond (indicatorField s Indicator.price) d.price_min &&
  maxCond (indicatorField s Indicator.price) d.price_max &&
  marketCapMinCond (indicatorField s Indicator.market_cap) d.market_cap_min &&
  marketCapMaxCond (indicatorField s Indicator.market_cap) d.market_cap_max &&
  (if hasAdvancedDate then
    minCond (advancedField s AdvancedIndicator.roe) d.roe_min &&
    maxCond (advancedField s AdvancedIndicator.roe) d.roe_max &&
    minCond (advancedField s AdvancedIndicator.roa) d.roa_min &&
    maxCond (advancedField s AdvancedIndicator.roa) d.roa_max &&
    minCond (advancedField s AdvancedIndicator.equity_ratio) d.equity_ratio_min &&
    maxCond (advancedField s AdvancedIndicator.equity_ratio) d.equity_ratio_max &&
    minCond (advancedField s AdvancedIndicator.current_ratio) d.current_ratio_min &&
    maxCond (advancedField s AdvancedIndicator.current_ratio) d.current_ratio_max &&
    minCond (advancedField s AdvancedIndicator.revenue_growth_1y) d.revenue_growth_min &&
    minCond (advancedField s AdvancedIndicator.net_growth_1y) d.profit_growth_min
  else true) &&
  textCond s.market d.market &&
  textCond s.sector d.sector &&
  sizeCond s.size_category d.size_category

/-! ### Post-filter loop (views.py lines 338-375) -/

/-- The counting loop of check_consecutive_profit_years: `required` adjacent
comparisons must all hold (truthy values, newer strictly greater). -/
def checkStreakLoop : List Financial → ℕ → Bool
  | _, 0 => true
  | current :: previous :: rest, n + 1 =>
      if truthy current.net_income = true ∧ truthy previous.net_income = true ∧
          current.net_income.getD 0 > previous.net_income.getD 0 then
        checkStreakLoop (previous :: rest) n
      else false
  | _, _ + 1 => false

/-- `check_consecutive_profit_years(financials, required_years)` (views.py
lines 377-393): False for fewer than required+1 records, else the year-
descending walk. -/
def check_consecutive_profit_years (financials : List Financial) (required : ℕ) : Bool :=
  if financials.length < required + 1 then false
  else checkStreakLoop (sortByYearDesc financials) required

/-- The dangerous keywords of evaluate_custom_formula. -/
def dangerousKeywords : List String := ["import", "exec", "eval", "__", "open", "file"]

/-- `evaluate_custom_formula` (views.py lines 396-430): after substituting
metric names by their numeric values (which can neither create nor destroy
an occurrence of a dangerous keyword — the keywords share no letters with
any inserted numeral), the formula is rejected iff it contains a dangerous
keyword; otherwise the placeholder implementation returns True. -/
def evaluate_custom_formula (formula : String) : Bool :=
  !(dangerousKeywords.any fun k => charsContains k.data (pyLower formula).data)

/-- The `continue` checks of the per-stock loop: a missing indicator row,
the loss-stock exclusion, the profit-streak requirement, the dividend-streak
placeholder (a positive current dividend yield), and the custom formula. -/
def passesPostFilters (d : FormData) (s : Stock) : Bool :=
  s.latest_indicator.isSome &&
  (if d.exclude_loss_stocks then
    match s.recent_financials.head? with
    | some latest =>
        !(truthy latest.net_income && decide (latest.net_income.getD 0 < 0))
    | none => true
  else true) &&
  (match d.consecutive_profit_years with
   | some n =>
      if n = 0 then true else check_consecutive_profit_years s.recent_financials n
   | none => true) &&
  (match d.consecutive_dividend_years with
   | some n =>
      if n = 0 then true
      else truthy (indicatorField s Indicator.dividend_yield) &&
        decide (0 < (indicatorField s Indicator.dividend_yield).getD 0)
   | none => true) &&
  (if d.custom_formula = "" then true else evaluate_custom_formula d.custom_formula)

/-- A default (empty) indicator row, for the total projection below. -/
def emptyIndicator : Indicator := ⟨none, none, none, none, none⟩

/-- `build_complete_queryset(form)` (views.py lines 172-376): an invalid
form — clean() recorded an error — yields [] before any stock is examined;
otherwise the stocks carrying a latest indicator row that satisfy every Q
condition and survive the post-filter loop are scored, in queryset order
(ascending code, the Stock Meta ordering). -/
def build_complete_queryset (d : FormData) (hasAdvancedDate : Bool)
    (stocks : List Stock) : List (Stock × ScoreResult) :=
  if formErrors d ≠ [] then []
  else
    (stocks.filter (fun s =>
      s.latest_indicator.isSome && matchesConditions d hasAdvancedDate s &&
        passesPostFilters d s)).map
      (fun s => (s, calculate_stock_scores_complete (s.latest_indicator.getD emptyIndicator)
        s.latest_advanced s.recent_financials))

/-- C6: a criteria configuration with zero configured predicates makes
clean() raise the no-condition ValidationError (the InvalidCriteria
condition), the form is invalid, and build_complete_queryset returns []
before examining any stock — for ANY invalid form and any stock universe,
so empty criteria never silently match all entities. -/
theorem empty_criteria_invalid :
    formErrors emptyForm = [FormError.noCondition] ∧
    (∀ (d : FormData) (hasAdvancedDate : Bool) (stocks : List Stock),
        formErrors d ≠ [] → build_complete_queryset d hasAdvancedDate stocks = []) ∧
    (∀ (hasAdvancedDate : Bool) (stocks : List Stock),
        build_complete_queryset emptyForm hasAdvancedDate stocks = []) := by
  have h1 : formErrors emptyForm = [FormError.noCondition] := rfl
  have h2 : ∀ (d : FormData) (hasAdvancedDate : Bool) (stocks : List Stock),
      formErrors d ≠ [] → build_complete_queryset d hasAdvancedDate stocks = [] := by
    intro d hA stocks h
    rw [build_complete_queryset, if_pos h]
  exact ⟨h1, h2, fun hA stocks => h2 emptyForm hA stocks (by rw [h1]; simp)⟩

/-- Witness for C6: on a one-stock universe the empty form yields no
results (the invalid-form clause applied at a concrete input). -/
theorem empty_criteria_invalid_witness :
    build_complete_queryset emptyForm true
      [⟨7203, "Prime", "Automobiles", "large",
        some ⟨some 10, some 1, some 2, some 100, some 1000000⟩, none, []⟩] = [] :=
  empty_criteria_invalid.2.1 emptyForm true _
    (by rw [empty_criteria_invalid.1]; simp)

/-! ### Concrete screening scenario for C5 and C10 -/

/-- Five configured predicates: PER at most 15, PBR at most 1.5, dividend
yield at least 3, ROE at least 10, equity ratio at least 50. -/
def fiveCriteria : FormData :=
  { emptyForm with
    per_max := some 15
    pbr_max := some 1.5
    dividend_yield_min := some 3
    roe_min := some 10
    equity_ratio_min := some 50 }

/-- An entity satisfying all five predicates, with PER exactly at the
supplied boundary 15. -/
def stockBoundary : Stock :=
  { code := 7203
    market := "Prime"
    sector := "Automobiles"
    size_category := "large"
    latest_indicator := some ⟨some 15, some 1.2, some 3.5, some 2500, some 4000000000000⟩
    latest_advanced := some ⟨some 12, some 5, some 60, some 1.1, none, none⟩
    recent_financials := [] }

/-- The same entity with ROE 9: it fails exactly one of the five
predicates. -/
def stockFailingRoe : Stock :=
  { stockBoundary with
    latest_advanced := some ⟨some 9, some 5, some 60, some 1.1, none, none⟩ }

/-- The same entity with an Absent ROE. -/
def stockAbsentRoe : Stock :=
  { stockBoundary with
    latest_advanced := some ⟨none, some 5, some 60, some 1.1, none, none⟩ }

/-- C5: range predicates are inclusive (`value >= min`, `value <= max`), an
Absent target value fails a configured range predicate whichever bound was
supplied, and the filter is a pure conjunction — one failing configured
predicate rejects the entity; concretely, the entity at the PER boundary
passing all five configured predicates matches, the one failing exactly the
ROE predicate is rejected, and the one with Absent ROE is rejected. -/
theorem filter_conjunction_spec :
    (∀ v : ℚ, qGte (some v) v = true ∧ qLte (some v) v = true) ∧
    (∀ t : ℚ, qGte none t = false ∧ qLte none t = false) ∧
    (∀ t : ℚ, t ≠ 0 → minCond none (some t) = false ∧ maxCond none (some t) = false) ∧
    (∀ (d : FormData) (hasAdv : Bool) (s : Stock),
        minCond (indicatorField s Indicator.per) d.per_min = false →
        matchesConditions d hasAdv s = false) ∧
    (∀ (d : FormData) (s : Stock),
        minCond (advancedField s AdvancedIndicator.roe) d.roe_min = false →
        matchesConditions d true s = false) ∧
    matchesConditions fiveCriteria true stockBoundary = true ∧
    matchesConditions fiveCriteria true stockFailingRoe = false ∧
    matchesConditions fiveCriteria true stockAbsentRoe = false := by
  refine ⟨?_, ?_, ?_, ?_, ?_, ?_, ?_, ?_⟩
  · intro v
    constructor <;> simp [qGte, qLte]
  · exact fun t => ⟨rfl, rfl⟩
  · intro t ht
    constructor
    · show (if t = 0 then true else qGte none t) = false
      rw [if_neg ht]
      rfl
    · show (if t = 0 then true else qLte none t) = false
      rw [if_neg ht]
      rfl
  · intro d hasAdv s h
    simp [matchesConditions, h]
  · intro d s h
    simp [matchesConditions, h]
  · norm_num [matchesConditions, fiveCriteria, stockBoundary, emptyForm, minCond, maxCond,
      marketCapMinCond, marketCapMaxCond, qGte, qLte, indicatorField, advancedField,
      textCond, sizeCond]
  · norm_num [matchesConditions, fiveCriteria, stockFailingRoe, stockBoundary, emptyForm,
      minCond, maxCond, marketCapMinCond, marketCapMaxCond, qGte, qLte, indicatorField,
      advancedField, textCond, sizeCond]
  · norm_num [matchesConditions, fiveCriteria, stockAbsentRoe, stockBoundary, emptyForm,
      minCond, maxCond, marketCapMinCond, marketCapMaxCond, qGte, qLte, indicatorField,
      advancedField, textCond, sizeCond]

/-- Witness for C5: the Absent-fails and conjunction clauses applied at a
concrete form and entity (PER minimum 8 against an entity whose PER column
is Absent). -/
theorem filter_conjunction_spec_witness :
    matchesConditions { emptyForm with per_min := some 8 } true
      { stockBoundary with latest_indicator := some emptyIndicator } = false :=
  filter_conjunction_spec.2.2.2.1 { emptyForm with per_min := some 8 } true
    { stockBoundary with latest_indicator := some emptyIndicator }
    (by norm_num [minCond, indicatorField, emptyIndicator, qGte])

/-- The zero-threshold form of claim C10. -/
def zeroMinForm : FormData :=
  { emptyForm with per_min := some 0, pbr_min := some 0, dividend_yield_min := some 0 }

/-- An entity with a negative PER and Absent PBR and dividend yield. -/
def stockNegativePer : Stock :=
  { stockBoundary with
    latest_indicator := some ⟨some (-5), none, none, none, none⟩
    latest_advanced := none }

/-- C10: a range threshold supplied as exactly 0 is truthiness-skipped —
the predicate is not attached at all, exactly as if the field had been left
empty — so entities with Absent or negative values of that metric are not
rejected by it: with per_min = pbr_min = dividend_yield_min = 0 the entity
with PER -5 and Absent PBR/dividend yield matches, and the zero-threshold
form filters identically to the empty form on every stock. -/
theorem zero_threshold_skipped :
    (∀ v : Option ℚ, minCond v (some 0) = true ∧ maxCond v (some 0) = true ∧
        marketCapMinCond v (some 0) = true ∧ marketCapMaxCond v (some 0) = true) ∧
    (∀ v : Option ℚ, minCond v none = true ∧ maxCond v none = true) ∧
    (∀ (hasAdv : Bool) (s : Stock),
        matchesConditions zeroMinForm hasAdv s = true ∧
        matchesConditions zeroMinForm hasAdv s = matchesConditions emptyForm hasAdv s) ∧
    matchesConditions zeroMinForm true stockNegativePer = true := by
  have hall : ∀ (hasAdv : Bool) (s : Stock), matchesConditions zeroMinForm hasAdv s = true := by
    intro hasAdv s
    simp [matchesConditions, zeroMinForm, emptyForm, minCond, maxCond, marketCapMinCond,
      marketCapMaxCond, textCond, sizeCond]
  have hempty : ∀ (hasAdv : Bool) (s : Stock), matchesConditions emptyForm hasAdv s = true := by
    intro hasAdv s
    simp [matchesConditions, emptyForm, minCond, maxCond, marketCapMinCond,
      marketCapMaxCond, textCond, sizeCond]
  refine ⟨?_, ?_, ?_, ?_⟩
  · intro v
    exact ⟨rfl, rfl, rfl, rfl⟩
  · intro v
    exact ⟨rfl, rfl⟩
  · intro hasAdv s
    rw [hall hasAdv s, hempty hasAdv s]
    exact ⟨rfl, rfl⟩
  · exact hall true stockNegativePer

/-! ## Result ranker (stock/views.py, sort_results, lines 472-505)

`sorted(results_data, key=get_sort_value, reverse=reverse)` — a pure stable
sort (the surrounding try/except never fires: the key function is total).
The input list comes from build_complete_queryset in queryset order, which
the Stock Meta `ordering = ['code']` makes ascending by entity code. -/

/-- `float('inf')`: a stand-in strictly above every metric value the
normalizer admits (|x| <= 10^15).  Only its order relative to those values
matters here. -/
def INF : ℚ := 10 ^ 30

/-- A truthy column as sort key, missing (falsy) mapping to infinity
(`float(item['indicator'].per) if item['indicator'].per else float('inf')`). -/
def optKeyOrInf (v : Option ℚ) : ℚ := if truthy v then v.getD 0 else INF

/-- A truthy column as sort key, missing (falsy) mapping to 0. -/
def optKeyOrZero (v : Option ℚ) : ℚ := if truthy v then v.getD 0 else 0

/-- get_sort_value: the caller-selected sort key of a scored result row.
The entity code (a numeric ticker string in the source) is modelled by its
numeric value. -/
def get_sort_value (field : String) (item : Stock × ScoreResult) : ℚ :=
  if field = "total_score" then item.2.total_score
  else if field = "per" then optKeyOrInf (indicatorField item.1 Indicator.per)
  else if field = "pbr" then optKeyOrInf (indicatorField item.1 Indicator.pbr)
  else if field = "roe" then optKeyOrZero (advancedField item.1 AdvancedIndicator.roe)
  else if field = "dividend_yield" then
    optKeyOrZero (indicatorField item.1 Indicator.dividend_yield)
  else if field = "price" then optKeyOrZero (indicatorField item.1 Indicator.price)
  else if field = "market_cap" then optKeyOrZero (indicatorField item.1 Indicator.market_cap)
  else if field = "code" then (item.1.code : ℚ)
  else 0

/-- `reverse = sort_by.startswith('-')` and the bare field name. -/
def parseSortBy (s : String) : Bool × String :=
  match s.data with
  | '-' :: rest => (true, ⟨rest⟩)
  | _ => (false, s)

/-- The strict precedence Python's stable sort realizes: a must precede b
iff its key is strictly smaller (ascending) or strictly larger
(descending); ties keep input order. -/
def sortLt (rev : Bool) (k : α → ℚ) (a b : α) : Bool :=
  cond rev (decide (k b < k a)) (decide (k a < k b))

theorem sortLt_asym (rev : Bool) (k : α → ℚ) :
    ∀ a b, sortLt rev k a b = true → sortLt rev k b a = false := by
  intro a b
  cases rev <;>
    simp only [sortLt, Bool.cond_true, Bool.cond_false, decide_eq_true_eq,
      decide_eq_false_iff_not] <;>
    exact fun h => lt_asymm h

theorem sortLt_negtrans (rev : Bool) (k : α → ℚ) :
    ∀ a b c, sortLt rev k b a = false → sortLt rev k c b = false → sortLt rev k c a = false := by
  intro a b c h1 h2
  cases rev <;>
    simp only [sortLt, Bool.cond_true, Bool.cond_false, decide_eq_false_iff_not,
      not_lt] at h1 h2 ⊢
  · exact le_trans h1 h2
  · exact le_trans h2 h1

/-- `sort_results(results_data, sort_by)`. -/
def sort_results (results : List (Stock × ScoreResult)) (sort_by : String) :
    List (Stock × ScoreResult) :=
  stableSort (sortLt (parseSortBy sort_by).1 (get_sort_value (parseSortBy sort_by).2)) results

/-- C8: for every sort key and every result list in queryset order
(ascending entity code — the Stock Meta ordering), sort_results leaves no
strict inversion of the selected key, and any two rows with equal key
appear in ascending order of entity code: the stable sort plus the
code-ordered input realize the deterministic secondary tie-break, and the
output is a pure function of the input, so repeated queries over unchanged
data order identically. -/
theorem sort_results_stable_tiebreak :
    ∀ (sort_by : String) (results : List (Stock × ScoreResult)),
      results.Pairwise (fun a b => a.1.code < b.1.code) →
      (sort_results results sort_by).Pairwise (fun a b =>
          sortLt (parseSortBy sort_by).1 (get_sort_value (parseSortBy sort_by).2) b a =
            false) ∧
      (sort_results results sort_by).Pairwise (fun a b =>
          get_sort_value (parseSortBy sort_by).2 a = get_sort_value (parseSortBy sort_by).2 b →
          a.1.code < b.1.code) := by
  intro sort_by results h
  have hmain := @stableSort_pairwise (Stock × ScoreResult)
    (sortLt (parseSortBy sort_by).1 (get_sort_value (parseSortBy sort_by).2))
    (fun item => item.1.code)
    (sortLt_asym (parseSortBy sort_by).1 (get_sort_value (parseSortBy sort_by).2))
    (sortLt_negtrans (parseSortBy sort_by).1 (get_sort_value (parseSortBy sort_by).2))
    results h
  constructor
  · exact hmain.imp (fun hab => hab.1)
  · refine hmain.imp (fun hab hk => hab.2 ⟨?_, ?_⟩)
    · cases hrev : (parseSortBy sort_by).1 <;> simp [sortLt, hrev, hk]
    · cases hrev : (parseSortBy sort_by).1 <;> simp [sortLt, hrev, hk]

/-- Witness for C8: two rows tied at total score 50 in code order 1001,
1002, sorted descending by total score, satisfy both conclusions. -/
theorem sort_results_stable_tiebreak_witness :
    (sort_results
        [(⟨1001, "", "", "", none, none, []⟩, ⟨0, 0, 0, 0, 50⟩),
          (⟨1002, "", "", "", none, none, []⟩, ⟨10, 10, 10, 10, 50⟩)]
        "-total_score").Pairwise (fun a b =>
      get_sort_value (parseSortBy "-total_score").2 a =
        get_sort_value (parseSortBy "-total_score").2 b →
      a.1.code < b.1.code) :=
  (sort_results_stable_tiebreak "-total_score"
    [(⟨1001, "", "", "", none, none, []⟩, ⟨0, 0, 0, 0, 50⟩),
      (⟨1002, "", "", "", none, none, []⟩, ⟨10, 10, 10, 10, 50⟩)]
    (by simp [List.pairwise_cons])).2

end KabuApp
